import Mathlib

/-!
Shallow embedding of the agent tool layer found in the cookbook notebooks:
the retrieval tool (a vector-store similarity-search adapter) and the SQL
execution tool (a relational read-query adapter), together with the fixture
data the notebooks seed.  External collaborators (the vector store, the
SQLite engine reached through SQLAlchemy, the Python json module and the
Python string-rendering conventions) are modelled explicitly where the
repository code depends on their observable behaviour.
-/

/-- The single-quote character (codepoint 39). -/
def sqChar : Char := Char.ofNat 39

/-- The double-quote character (codepoint 34). -/
def dqChar : Char := Char.ofNat 34

/-- The opening-bracket character used by the lenient list detection. -/
def lbChar : Char := Char.ofNat 91

/-- The closing-bracket character. -/
def rbChar : Char := Char.ofNat 93

/-- The newline character. -/
def nlChar : Char := Char.ofNat 10

/-- One-character string holding a single quote. -/
def sqStr : String := String.singleton sqChar

/-- Membership of a character in a string, as the Python `in` test on `str`. -/
def containsChar (s : String) (c : Char) : Bool := decide (c ∈ s.data)

/-- Number of occurrences of a character in a string. -/
def countChar (s : String) (c : Char) : Nat := s.data.count c

/-- Substring containment test, as the Python `in` test between strings. -/
def containsSub (hay pat : String) : Bool :=
  hay.data.tails.any fun suf => pat.data.isPrefixOf suf

/-- A dynamically typed Python value, restricted to the shapes the tool code
distinguishes: strings, integers, lists and `None`. -/
inductive PyValue where
  | str (s : String)
  | int (n : Int)
  | list (xs : List PyValue)
  | none

/-- `isinstance(v, str)` for the modelled dynamic values. -/
def PyValue.isStr : PyValue → Bool
  | .str _ => true
  | _ => false

/-- Python truthiness for the modelled dynamic values. -/
def pyTruthy : PyValue → Bool
  | .str s => !s.data.isEmpty
  | .int n => !(n == 0)
  | .list xs => !xs.isEmpty
  | .none => false

/-- Python `repr` of a string: quoted with single quotes, or with double
quotes when the string holds a single quote but no double quote.  Backslash
escape sequences are not modelled (no claim exercises them). -/
def pyReprStr (s : String) : String :=
  if containsChar s sqChar && !containsChar s dqChar then
    String.singleton dqChar ++ s ++ String.singleton dqChar
  else
    sqStr ++ s ++ sqStr

mutual

/-- Python `repr` of a modelled dynamic value. -/
def pyReprOf : PyValue → String
  | .str s => pyReprStr s
  | .int n => toString n
  | .list xs => String.singleton lbChar ++ String.intercalate ", " (pyReprList xs) ++ String.singleton rbChar
  | .none => "None"

/-- Pointwise `repr` over a list of modelled dynamic values. -/
def pyReprList : List PyValue → List String
  | [] => []
  | v :: vs => pyReprOf v :: pyReprList vs

end

/-- Python `str` of a modelled dynamic value: the identity on strings,
`repr` elsewhere. -/
def pyStrOf : PyValue → String
  | .str s => s
  | v => pyReprOf v

/-- `str.replace` of every single quote by a double quote, as performed by
the retrieval tool before structured parsing. -/
def replaceQuotes (s : String) : String :=
  String.mk (s.data.map fun c => if c = sqChar then dqChar else c)

/-- A scalar JSON value: a string or a natural number. -/
inductive JsonScalar where
  | jstr (s : String)
  | jnum (n : Nat)
deriving DecidableEq, BEq

/-- A parsed JSON value, restricted to the flat shapes the tool feeds to
the parser: a scalar or a list of scalars. -/
inductive JsonValue where
  | scalar (v : JsonScalar)
  | jlist (xs : List JsonScalar)
deriving DecidableEq, BEq

/-- Python truthiness of a parsed JSON value. -/
def jsonTruthy : JsonValue → Bool
  | .scalar (.jstr s) => !s.data.isEmpty
  | .scalar (.jnum n) => !(n == 0)
  | .jlist xs => !xs.isEmpty

/-- Skip leading space characters. -/
def skipSpaces : List Char → List Char
  | c :: cs => if c = ' ' then skipSpaces cs else c :: cs
  | [] => []

/-- Consume the body of a JSON string after its opening double quote, up to
the closing double quote.  Escape sequences are not modelled. -/
def parseJStringBody : List Char → Option (List Char × List Char)
  | [] => Option.none
  | c :: cs =>
    if c = dqChar then some ([], cs)
    else
      match parseJStringBody cs with
      | some (s, r) => some (c :: s, r)
      | Option.none => Option.none

/-- Split a leading run of decimal digits. -/
def parseDigits : List Char → List Char × List Char
  | [] => ([], [])
  | c :: cs =>
    if c.isDigit then
      let p := parseDigits cs
      (c :: p.1, p.2)
    else ([], c :: cs)

/-- Numeric value of a digit run. -/
def digitsToNat (ds : List Char) : Nat :=
  ds.foldl (fun acc c => acc * 10 + (c.toNat - 48)) 0

/-- Parse a scalar JSON value: a double-quoted string or a number. -/
def parseScalar : List Char → Option (JsonScalar × List Char)
  | [] => Option.none
  | c :: cs =>
    if c = dqChar then
      match parseJStringBody cs with
      | some (s, r) => some (JsonScalar.jstr (String.mk s), r)
      | Option.none => Option.none
    else if c.isDigit then
      let p := parseDigits (c :: cs)
      some (JsonScalar.jnum (digitsToNat p.1), p.2)
    else Option.none

/-- Parse the remainder of a JSON list after its first element: a possibly
empty run of comma-separated scalars followed by the closing bracket. -/
def parseItemsRest : Nat → List Char → Option (List JsonScalar × List Char)
  | 0, _ => Option.none
  | fuel + 1, cs =>
    match skipSpaces cs with
    | [] => Option.none
    | c :: cs2 =>
      if c = rbChar then some ([], cs2)
      else if c = ',' then
        match parseScalar (skipSpaces cs2) with
        | some (v, r) =>
          match parseItemsRest fuel r with
          | some (vs, r2) => some (v :: vs, r2)
          | Option.none => Option.none
        | Option.none => Option.none
      else Option.none

/-- Parse one JSON value: a flat list of scalars, or a bare scalar. -/
def parseTop (cs : List Char) : Option (JsonValue × List Char) :=
  match skipSpaces cs with
  | [] => Option.none
  | c :: cs2 =>
    if c = lbChar then
      match skipSpaces cs2 with
      | [] => Option.none
      | c2 :: cs3 =>
        if c2 = rbChar then some (JsonValue.jlist [], cs3)
        else
          match parseScalar (c2 :: cs3) with
          | some (v, r) =>
            match parseItemsRest (r.length + 1) r with
            | some (vs, r2) => some (JsonValue.jlist (v :: vs), r2)
            | Option.none => Option.none
          | Option.none => Option.none
    else
      match parseScalar (c :: cs2) with
      | some (v, r) => some (JsonValue.scalar v, r)
      | Option.none => Option.none

/-- Modelled from the spec: `json.loads` from the Python standard library
(an external collaborator), restricted to the flat string/number lists the
tool preprocessing produces; malformed input yields an error value. -/
def jsonLoads (s : String) : Except String JsonValue :=
  match parseTop s.data with
  | some (v, rest) => if skipSpaces rest = [] then Except.ok v else Except.error "Extra data"
  | Option.none => Except.error "Expecting value"

/-- A document held by the vector store: page content plus source metadata. -/
structure Document where
  page_content : String
  source : String
deriving DecidableEq

/-- Modelled from the spec: the external vector store is an opaque
collaborator; its ranking of all stored documents by similarity to a query
is abstracted as a function. -/
structure VectorStore where
  rank : String → List Document

/-- Modelled from the spec: metadata-filter matching of the external vector
store — a list filter value matches documents whose source appears in it. -/
def filterMatches (f : JsonValue) (src : String) : Bool :=
  match f with
  | .jlist xs => xs.contains (JsonScalar.jstr src)
  | .scalar (.jstr s) => s == src
  | .scalar (.jnum _) => false

/-- Modelled from the spec: similarity search of the external vector store —
the ranked documents, restricted to the optional metadata filter, cut to at
most `k` results. -/
def VectorStore.similarity_search (db : VectorStore) (query : String)
    (filter : Option JsonValue) (k : Nat) : List Document :=
  (match filter with
   | Option.none => db.rank query
   | some f => (db.rank query).filter fun d => filterMatches f d.source).take k

/-- Number of ranked matches available in the store for a query when no
filter is supplied. -/
def availableMatches (db : VectorStore) (query : String) : Nat :=
  (db.rank query).length

/-- The assertion message of the retrieval tool for a non-string query. -/
def queryAssertMessage : String := "Your search query must be a string"

/-- The fixed message the retrieval tool returns when no document matches. -/
def noDocumentsMessage : String :=
  "No documents found with this filtering. Try removing the source filter."

/-- The header preceding the joined documents in the retrieval tool output. -/
def retrievedHeader : String := "Retrieved documents:\n\n"

/-- The separator marker placed between document blocks. -/
def documentSeparator : String := "\n===Document===\n"

/-- The structured-parsing step applied to the stringified source argument:
replace single quotes by double quotes, `json.loads` the result, and apply
the truthiness test the code uses to decide whether to pass a filter. -/
def sourceLoadStep (u : String) : Except String (Option JsonValue) :=
  match jsonLoads (replaceQuotes u) with
  | Except.error e => Except.error e
  | Except.ok j => Except.ok (if jsonTruthy j then some j else Option.none)

/-- The source-argument preprocessing of `RetrieverTool.forward`: a falsy
source yields no filter; a truthy string source without an opening bracket
is first wrapped into a one-element list; the stringified result is then
parsed structurally. -/
def parseSourceArg (source : PyValue) : Except String (Option JsonValue) :=
  if pyTruthy source then
    if source.isStr && !containsChar (pyStrOf source) lbChar then
      sourceLoadStep (pyStrOf (PyValue.list [source]))
    else
      sourceLoadStep (pyStrOf source)
  else Except.ok Option.none

/-- `RetrieverTool.forward`: assert the query is a string, preprocess the
optional source filter, run the similarity search with `k = 3`, and either
return the fixed no-documents message or join the page contents with the
document separator under the fixed header. -/
def RetrieverTool.forward (db : VectorStore) (query : PyValue) (source : PyValue) :
    Except String String :=
  match query with
  | .str q =>
    match parseSourceArg source with
    | Except.error e => Except.error e
    | Except.ok filt =>
      let docs := db.similarity_search q filt 3
      if docs.length = 0 then Except.ok noDocumentsMessage
      else
        Except.ok (retrievedHeader ++
          String.intercalate documentSeparator (docs.map Document.page_content))
  | _ => Except.error queryAssertMessage

/-- The mutable class-level state shared by all `RetrieverTool` instances:
the description text of the `source` entry of the class attribute `inputs`. -/
structure RetrieverClassState where
  sourceDescription : String
deriving DecidableEq

/-- The per-instance state of a `RetrieverTool`: the wrapped vector store. -/
structure RetrieverInstance where
  vectordb : VectorStore

/-- The description text `RetrieverTool.__init__` writes into the shared
class-level `inputs` mapping for a given `all_sources` value. -/
def mkSourceDescription (all_sources : String) : String :=
  "The source of the documents to search, as a str representation of a list. Possible values in the list are: "
    ++ all_sources
    ++ ". If this argument is not provided, all sources will be searched."

/-- `RetrieverTool.__init__`: store the vector store on the instance and
overwrite the source description in the shared class-level `inputs`
mapping. -/
def RetrieverTool.init (_cls : RetrieverClassState) (vectordb : VectorStore)
    (all_sources : String) : RetrieverInstance × RetrieverClassState :=
  (RetrieverInstance.mk vectordb, RetrieverClassState.mk (mkSourceDescription all_sources))

/-- Reading `inst.inputs["source"]["description"]`: the instance holds no
own `inputs` attribute, so Python attribute lookup falls through to the
shared class-level mapping. -/
def RetrieverInstance.sourceDesc (_ : RetrieverInstance) (cls : RetrieverClassState) : String :=
  cls.sourceDescription

/-- `RetrieverTool.forward` with the mutable state made explicit: the body
assigns neither to `self` nor to any class or global attribute, so the
state components pass through unchanged alongside the computed result. -/
def RetrieverTool.forwardSt (cls : RetrieverClassState) (inst : RetrieverInstance)
    (query source : PyValue) :
    Except String String × RetrieverClassState × RetrieverInstance :=
  (RetrieverTool.forward inst.vectordb query source, cls, inst)

/-- A cell value of a result row: SQLite integers, text and floats; the
float is held exactly as a count of hundredths, since every fixture value
has two decimal digits. -/
inductive SqlValue where
  | int (n : Int)
  | str (s : String)
  | fl (cents : Int)
deriving DecidableEq

/-- Python float `repr` of a nonnegative two-decimal value held in
hundredths: trailing fractional zeros are dropped, with at least one
fractional digit kept. -/
def centsRepr (c : Int) : String :=
  let n := c.toNat
  let whole := n / 100
  let frac := n % 100
  if frac = 0 then toString whole ++ ".0"
  else if frac % 10 = 0 then toString whole ++ "." ++ toString (frac / 10)
  else if frac < 10 then toString whole ++ ".0" ++ toString frac
  else toString whole ++ "." ++ toString frac

/-- Python `repr` of one cell value. -/
def sqlValueRepr : SqlValue → String
  | .int n => toString n
  | .str s => sqStr ++ s ++ sqStr
  | .fl c => centsRepr c

/-- `str(row)` for a SQLAlchemy result row: the Python tuple rendering of
its cell values, with the trailing comma of one-element tuples. -/
def rowStr (r : List SqlValue) : String :=
  match r with
  | [v] => "(" ++ sqlValueRepr v ++ ",)"
  | _ => "(" ++ String.intercalate ", " (r.map sqlValueRepr) ++ ")"

/-- A row of the `receipts` fixture table. -/
structure Receipt where
  receipt_id : Int
  customer_name : String
  priceCents : Int
  tipCents : Int
deriving DecidableEq

/-- The four rows the notebook inserts into the `receipts` table. -/
def seededReceipts : List Receipt :=
  [Receipt.mk 1 "Alan Payne" 1206 120,
   Receipt.mk 2 "Alex Mason" 2386 24,
   Receipt.mk 3 "Woodrow Wilson" 5343 543,
   Receipt.mk 4 "Margaret James" 2111 100]

/-- Insert a row into a list kept in descending price order. -/
def insertByPriceDesc (r : Receipt) : List Receipt → List Receipt
  | [] => [r]
  | x :: xs =>
    if x.priceCents < r.priceCents then r :: x :: xs
    else x :: insertByPriceDesc r xs

/-- Sort rows by price, highest first. -/
def orderByPriceDesc : List Receipt → List Receipt
  | [] => []
  | r :: rs => insertByPriceDesc r (orderByPriceDesc rs)

/-- The top-receipt query the notebook scenario exercises. -/
def topReceiptQuery : String :=
  "SELECT customer_name, price FROM receipts ORDER BY price DESC LIMIT 1"

/-- The full-table read query the notebook checks the fixture with. -/
def selectAllQuery : String := "SELECT * from receipts"

/-- Modelled from the spec: the relational engine (SQLite reached through a
SQLAlchemy connection) is an external opaque collaborator; the semantics of
the two read queries the notebook exercises is modelled over the fixture
rows, and any other query is modelled as yielding no rows. -/
def sqliteExec (db : List Receipt) (query : String) : List (List SqlValue) :=
  if query = topReceiptQuery then
    ((orderByPriceDesc db).take 1).map fun r =>
      [SqlValue.str r.customer_name, SqlValue.fl r.priceCents]
  else if query = selectAllQuery then
    db.map fun r =>
      [SqlValue.int r.receipt_id, SqlValue.str r.customer_name,
       SqlValue.fl r.priceCents, SqlValue.fl r.tipCents]
  else []

/-- `SQLExecutorTool.forward`: execute the query over the engine and append
a newline followed by the row rendering for every result row, starting from
the empty string. -/
def SQLExecutorTool.forward (exec : String → List (List SqlValue)) (query : String) : String :=
  (exec query).foldl (fun out row => out ++ "\n" ++ rowStr row) ""

/-- `SQLExecutorTool.forward` with the external database state made
explicit: the modelled read queries leave the database unchanged, and the
tool layer holds no state of its own. -/
def SQLExecutorTool.forwardSt (db : List Receipt) (query : String) : String × List Receipt :=
  (SQLExecutorTool.forward (sqliteExec db) query, db)

/-- A vector store that ranks no documents for any query. -/
def emptyStore : VectorStore := VectorStore.mk fun _ => []

/-- A scalar source-filter value holding an opening bracket. -/
def bracketScalar : String := "a[b"

/-- The argument error of the external SQLAlchemy `text` construct. -/
def textArgumentMessage : String := "Textual SQL expression should be a string"

/-- Modelled from the spec: `SQLExecutorTool.forward` under dynamic typing —
the external SQLAlchemy `text` construct rejects a non-string query with an
argument error before the execute call; a string query proceeds as
`forward`. -/
def SQLExecutorTool.forwardDyn (exec : String → List (List SqlValue)) (query : PyValue) :
    Except String String :=
  match query with
  | .str q => Except.ok (SQLExecutorTool.forward exec q)
  | _ => Except.error textArgumentMessage

/-- Decidable equality of tool results. -/
instance instDecEqExceptStr : DecidableEq (Except String String) := fun x y =>
  match x, y with
  | .ok a, .ok b =>
    if h : a = b then .isTrue (congrArg Except.ok h)
    else .isFalse (fun hh => h (Except.ok.inj hh))
  | .error a, .error b =>
    if h : a = b then .isTrue (congrArg Except.error h)
    else .isFalse (fun hh => h (Except.error.inj hh))
  | .ok _, .error _ => .isFalse (fun hh => Except.noConfusion hh)
  | .error _, .ok _ => .isFalse (fun hh => Except.noConfusion hh)

theorem count_of_not_contains (s : String) (c : Char) (h : containsChar s c = false) :
    s.data.count c = 0 :=
  List.count_eq_zero.mpr (of_decide_eq_false h)

theorem sqlFold_count (rows : List (List SqlValue)) (acc : String)
    (h : ∀ r ∈ rows, containsChar (rowStr r) nlChar = false) :
    countChar (rows.foldl (fun out row => out ++ "\n" ++ rowStr row) acc) nlChar =
      countChar acc nlChar + rows.length := by
  induction rows generalizing acc with
  | nil => simp [countChar]
  | cons r rs ih =>
    have h0 := count_of_not_contains (rowStr r) nlChar (h r (List.mem_cons_self r rs))
    have h1 : (String.data "\n").count nlChar = 1 := by decide
    rw [List.foldl_cons, ih _ (fun x hx => h x (List.mem_cons_of_mem _ hx))]
    simp only [countChar, String.data_append, List.count_append, h0, h1, List.length_cons]
    omega

theorem sqlFold_shape (rows : List (List SqlValue)) (acc : String) :
    ∃ t, rows.foldl (fun out row => out ++ "\n" ++ rowStr row) acc = acc ++ t := by
  induction rows generalizing acc with
  | nil => exact ⟨"", (String.append_empty acc).symm⟩
  | cons r rs ih =>
    obtain ⟨t, ht⟩ := ih (acc ++ "\n" ++ rowStr r)
    refine ⟨"\n" ++ rowStr r ++ t, ?_⟩
    rw [List.foldl_cons, ht]
    rw [String.append_assoc, String.append_assoc, String.append_assoc]

theorem parseSourceArg_bare (s : String) (hne : s ≠ "") (hlb : containsChar s lbChar = false) :
    parseSourceArg (PyValue.str s) = sourceLoadStep (pyStrOf (PyValue.list [PyValue.str s])) := by
  have hdata : ¬ s.data.isEmpty := by
    cases h : s.data with
    | nil => exact absurd (String.ext h) hne
    | cons c cs => simp
  simp [parseSourceArg, pyTruthy, hdata, PyValue.isStr, pyStrOf, hlb]

theorem parseSourceArg_bracket (s : String) (hne : s ≠ "") (hlb : containsChar s lbChar = true) :
    parseSourceArg (PyValue.str s) = sourceLoadStep s := by
  have hdata : ¬ s.data.isEmpty := by
    cases h : s.data with
    | nil => exact absurd (String.ext h) hne
    | cons c cs => simp
  simp [parseSourceArg, pyTruthy, hdata, PyValue.isStr, pyStrOf, hlb]

theorem listform_shape (s : String) :
    pyStrOf (PyValue.list [PyValue.str s]) =
      String.singleton lbChar ++ pyReprStr s ++ String.singleton rbChar := by
  simp [pyStrOf, pyReprOf, pyReprList, String.intercalate, String.intercalate.go]

theorem listform_contains_lb (s : String) :
    containsChar (pyStrOf (PyValue.list [PyValue.str s])) lbChar = true := by
  rw [listform_shape]
  simp [containsChar, String.data_append, String.singleton]

theorem listform_ne_empty (s : String) : pyStrOf (PyValue.list [PyValue.str s]) ≠ "" := by
  rw [listform_shape]
  intro h
  have := congrArg String.data h
  simp [String.data_append, String.singleton] at this

theorem forward_congr_source (db : VectorStore) (q : String) (s1 s2 : PyValue)
    (h : parseSourceArg s1 = parseSourceArg s2) :
    RetrieverTool.forward db (PyValue.str q) s1 = RetrieverTool.forward db (PyValue.str q) s2 := by
  unfold RetrieverTool.forward
  rw [h]

/-- C1: seeding the receipts table with exactly the four fixture rows and
invoking the SQL tool forward with the top-receipt query (ORDER BY price
DESC LIMIT 1) returns a string containing the tuple rendering of the
Woodrow Wilson row, name single-quoted followed by 53.43. -/
theorem c1_sql_top_receipt :
    containsSub (SQLExecutorTool.forward (sqliteExec seededReceipts) topReceiptQuery)
      ("(" ++ sqStr ++ "Woodrow Wilson" ++ sqStr ++ ", 53.43)") = true := by decide

/-- C3: for every non-string query value, both tool forwards fail with
their type or validation error, and the result does not depend on the
wrapped external capability, which is therefore never consulted. -/
theorem c3_nonstring_query_fails (db : VectorStore)
    (exec : String → List (List SqlValue)) (query source : PyValue)
    (h : query.isStr = false) :
    RetrieverTool.forward db query source = Except.error queryAssertMessage ∧
    SQLExecutorTool.forwardDyn exec query = Except.error textArgumentMessage := by
  cases query with
  | str s => simp [PyValue.isStr] at h
  | int n => exact ⟨rfl, rfl⟩
  | list xs => exact ⟨rfl, rfl⟩
  | none => exact ⟨rfl, rfl⟩

/-- Witness for C3 at the concrete non-string query 7. -/
theorem c3_nonstring_query_fails_witness :
    RetrieverTool.forward emptyStore (PyValue.int 7) PyValue.none =
        Except.error queryAssertMessage ∧
    SQLExecutorTool.forwardDyn (sqliteExec seededReceipts) (PyValue.int 7) =
        Except.error textArgumentMessage :=
  c3_nonstring_query_fails emptyStore (sqliteExec seededReceipts) (PyValue.int 7)
    PyValue.none (by decide)

/-- C4 counterexample: for the scalar filter value a[b, which holds an
opening bracket, invoking the retrieval tool with the scalar differs from
invoking it with the string representation of the one-element list holding
it, against the same unchanged vector store. -/
theorem c4_scalar_bracket_counterexample :
    RetrieverTool.forward emptyStore (PyValue.str "q") (PyValue.str bracketScalar) ≠
      RetrieverTool.forward emptyStore (PyValue.str "q")
        (PyValue.str (pyStrOf (PyValue.list [PyValue.str bracketScalar]))) := by decide

/-- C4 amended: for every nonempty scalar filter string holding no opening
bracket, invoking the retrieval tool with the scalar yields a result
identical to invoking it with the string representation of the one-element
list holding it, against the same unchanged vector store. -/
theorem c4_amended_scalar_normalizes (db : VectorStore) (q s : String)
    (hne : s ≠ "") (hlb : containsChar s lbChar = false) :
    RetrieverTool.forward db (PyValue.str q) (PyValue.str s) =
      RetrieverTool.forward db (PyValue.str q)
        (PyValue.str (pyStrOf (PyValue.list [PyValue.str s]))) := by
  apply forward_congr_source
  rw [parseSourceArg_bare s hne hlb,
    parseSourceArg_bracket (pyStrOf (PyValue.list [PyValue.str s]))
      (listform_ne_empty s) (listform_contains_lb s)]

/-- Witness for amended C4 at the concrete scalar docs. -/
theorem c4_amended_scalar_normalizes_witness :
    RetrieverTool.forward emptyStore (PyValue.str "q") (PyValue.str "docs") =
      RetrieverTool.forward emptyStore (PyValue.str "q")
        (PyValue.str (pyStrOf (PyValue.list [PyValue.str "docs"]))) :=
  c4_amended_scalar_normalizes emptyStore "q" "docs" (by decide) (by decide)

/-- C8: a truthy string filter value without an opening bracket is first
coerced into one-element list form and then parsed structurally from its
string representation with single quotes replaced by double quotes; a
value holding an opening bracket is parsed structurally without coercion. -/
theorem c8_lenient_filter_parsing (s : String) (hne : s ≠ "") :
    (containsChar s lbChar = false →
      parseSourceArg (PyValue.str s) =
        sourceLoadStep (pyStrOf (PyValue.list [PyValue.str s]))) ∧
    (containsChar s lbChar = true →
      parseSourceArg (PyValue.str s) = sourceLoadStep s) :=
  ⟨parseSourceArg_bare s hne, parseSourceArg_bracket s hne⟩

/-- Witness for C8 at the concrete filter values docs and [1]. -/
theorem c8_lenient_filter_parsing_witness :
    (parseSourceArg (PyValue.str "docs") =
      sourceLoadStep (pyStrOf (PyValue.list [PyValue.str "docs"]))) ∧
    (parseSourceArg (PyValue.str "[1]") = sourceLoadStep "[1]") :=
  ⟨(c8_lenient_filter_parsing "docs" (by decide)).1 (by decide),
   (c8_lenient_filter_parsing "[1]" (by decide)).2 (by decide)⟩

/-- C2: with a string query and no source filter, the retrieval tool
returns either the fixed no-documents message or the fixed header followed
by document blocks joined by the document separator, the number of blocks
being the configured count 3 capped by the number of available matches. -/
theorem c2_retriever_block_count (db : VectorStore) (q : String) :
    RetrieverTool.forward db (PyValue.str q) PyValue.none = Except.ok noDocumentsMessage ∨
    ∃ blocks : List String,
      blocks.length = min 3 (availableMatches db q) ∧
      RetrieverTool.forward db (PyValue.str q) PyValue.none =
        Except.ok (retrievedHeader ++ String.intercalate documentSeparator blocks) := by
  have hshape : RetrieverTool.forward db (PyValue.str q) PyValue.none =
      if ((db.rank q).take 3).length = 0 then Except.ok noDocumentsMessage
      else Except.ok (retrievedHeader ++ String.intercalate documentSeparator
        (((db.rank q).take 3).map Document.page_content)) := rfl
  by_cases h : ((db.rank q).take 3).length = 0
  · left
    rw [hshape, if_pos h]
  · right
    refine ⟨((db.rank q).take 3).map Document.page_content, ?_, ?_⟩
    · rw [List.length_map, List.length_take]
      rfl
    · rw [hshape, if_neg h]

/-- C5 counterexample: against the fixture table of 4 rows, the top-receipt
read query yields a string holding exactly one row representation, not one
per fixture row. -/
theorem c5_row_count_counterexample :
    countChar (SQLExecutorTool.forward (sqliteExec seededReceipts) topReceiptQuery) nlChar = 1 ∧
    seededReceipts.length = 4 ∧
    countChar (SQLExecutorTool.forward (sqliteExec seededReceipts) topReceiptQuery) nlChar ≠
      seededReceipts.length := by decide

/-- C5 amended: a read query whose row representations hold no newline
yields a string with exactly one line-separated row representation per
result row; the full-table read of the 4-row fixture yields exactly the
four inserted rows with their literal column values. -/
theorem c5_amended_row_lines (exec : String → List (List SqlValue)) (q : String)
    (h : ∀ r ∈ exec q, containsChar (rowStr r) nlChar = false) :
    countChar (SQLExecutorTool.forward exec q) nlChar = (exec q).length ∧
    SQLExecutorTool.forward (sqliteExec seededReceipts) selectAllQuery =
      "\n(1, " ++ sqStr ++ "Alan Payne" ++ sqStr ++ ", 12.06, 1.2)" ++
      "\n(2, " ++ sqStr ++ "Alex Mason" ++ sqStr ++ ", 23.86, 0.24)" ++
      "\n(3, " ++ sqStr ++ "Woodrow Wilson" ++ sqStr ++ ", 53.43, 5.43)" ++
      "\n(4, " ++ sqStr ++ "Margaret James" ++ sqStr ++ ", 21.11, 1.0)" := by
  constructor
  · have := sqlFold_count (exec q) "" h
    simpa [SQLExecutorTool.forward, countChar] using this
  · decide

/-- Witness for amended C5 at the full-table read of the fixture. -/
theorem c5_amended_row_lines_witness :
    countChar (SQLExecutorTool.forward (sqliteExec seededReceipts) selectAllQuery) nlChar =
      (sqliteExec seededReceipts selectAllQuery).length ∧
    SQLExecutorTool.forward (sqliteExec seededReceipts) selectAllQuery =
      "\n(1, " ++ sqStr ++ "Alan Payne" ++ sqStr ++ ", 12.06, 1.2)" ++
      "\n(2, " ++ sqStr ++ "Alex Mason" ++ sqStr ++ ", 23.86, 0.24)" ++
      "\n(3, " ++ sqStr ++ "Woodrow Wilson" ++ sqStr ++ ", 53.43, 5.43)" ++
      "\n(4, " ++ sqStr ++ "Margaret James" ++ sqStr ++ ", 21.11, 1.0)" :=
  c5_amended_row_lines (sqliteExec seededReceipts) selectAllQuery (by decide)

/-- C6: two invocations of a tool forward with identical arguments against
the unchanged external resource yield identical outputs; the second
invocation runs from the state the first one leaves behind. -/
theorem c6_idempotent_invocations (cls : RetrieverClassState) (inst : RetrieverInstance)
    (query source : PyValue) (db : List Receipt) (q : String) :
    ((RetrieverTool.forwardSt cls inst query source).1 =
      (RetrieverTool.forwardSt (RetrieverTool.forwardSt cls inst query source).2.1
        (RetrieverTool.forwardSt cls inst query source).2.2 query source).1) ∧
    ((SQLExecutorTool.forwardSt db q).1 =
      (SQLExecutorTool.forwardSt (SQLExecutorTool.forwardSt db q).2 q).1) :=
  ⟨rfl, rfl⟩

/-- C7: a tool forward is a pure function of its declared inputs plus the
wrapped external resource — the result is independent of the shared
class-level state, and the invocation leaves every state component other
than the wrapped resource untouched. -/
theorem c7_forward_pure_frame (cls cls2 : RetrieverClassState) (inst : RetrieverInstance)
    (query source : PyValue) (db : List Receipt) (q : String) :
    ((RetrieverTool.forwardSt cls inst query source).1 =
      (RetrieverTool.forwardSt cls2 inst query source).1) ∧
    ((RetrieverTool.forwardSt cls inst query source).2 = (cls, inst)) ∧
    ((SQLExecutorTool.forwardSt db q).2 = db) :=
  ⟨rfl, rfl, rfl⟩

/-- C9: a query executing to zero rows makes the SQL tool return the empty
string, and a query executing to at least one row makes it return a string
beginning with a newline placed before the first row representation. -/
theorem c9_sql_output_shape (exec : String → List (List SqlValue)) (q : String) :
    (exec q = [] → SQLExecutorTool.forward exec q = "") ∧
    (exec q ≠ [] → ∃ t, SQLExecutorTool.forward exec q = "\n" ++ t) := by
  constructor
  · intro h
    simp [SQLExecutorTool.forward, h]
  · intro h
    cases hm : exec q with
    | nil => exact absurd hm h
    | cons r rs =>
      obtain ⟨t, ht⟩ := sqlFold_shape rs ("" ++ "\n" ++ rowStr r)
      refine ⟨rowStr r ++ t, ?_⟩
      unfold SQLExecutorTool.forward
      rw [hm, List.foldl_cons, ht, String.empty_append, String.append_assoc]

/-- Witness for C9 at a zero-row query and at the full-table read. -/
theorem c9_sql_output_shape_witness :
    SQLExecutorTool.forward (sqliteExec seededReceipts) "SELECT tip FROM receipts WHERE price > 100" = "" ∧
    (∃ t, SQLExecutorTool.forward (sqliteExec seededReceipts) selectAllQuery = "\n" ++ t) :=
  ⟨(c9_sql_output_shape (sqliteExec seededReceipts)
      "SELECT tip FROM receipts WHERE price > 100").1 (by decide),
   (c9_sql_output_shape (sqliteExec seededReceipts) selectAllQuery).2 (by decide)⟩

/-- C10: construction overwrites the source description in the class-level
inputs mapping shared by all instances, so after two constructions with
different all-sources values both instances, the first included, report
the description set by the most recent construction. -/
theorem c10_shared_inputs_mutation (cls0 : RetrieverClassState) (db1 db2 : VectorStore)
    (a1 a2 : String) (hne : a1 ≠ a2) :
    ((RetrieverTool.init cls0 db1 a1).1.sourceDesc
        (RetrieverTool.init (RetrieverTool.init cls0 db1 a1).2 db2 a2).2 =
      mkSourceDescription a2) ∧
    ((RetrieverTool.init (RetrieverTool.init cls0 db1 a1).2 db2 a2).1.sourceDesc
        (RetrieverTool.init (RetrieverTool.init cls0 db1 a1).2 db2 a2).2 =
      mkSourceDescription a2) ∧
    ((RetrieverTool.init cls0 db1 a1).1.sourceDesc
        (RetrieverTool.init (RetrieverTool.init cls0 db1 a1).2 db2 a2).2 ≠
      mkSourceDescription a1) := by
  refine ⟨rfl, rfl, fun h => hne ?_⟩
  have hd := congrArg String.data h
  simp only [RetrieverTool.init, RetrieverInstance.sourceDesc, mkSourceDescription,
    String.data_append, List.append_assoc] at hd
  have h2 := List.append_cancel_left hd
  have h3 := List.append_cancel_right h2
  exact (String.ext h3).symm

/-- Witness for C10 at two concrete constructions with sources a and b. -/
theorem c10_shared_inputs_mutation_witness :
    ((RetrieverTool.init (RetrieverClassState.mk "") emptyStore "a").1.sourceDesc
        (RetrieverTool.init (RetrieverTool.init (RetrieverClassState.mk "") emptyStore "a").2
          emptyStore "b").2 =
      mkSourceDescription "b") ∧
    ((RetrieverTool.init (RetrieverTool.init (RetrieverClassState.mk "") emptyStore "a").2
          emptyStore "b").1.sourceDesc
        (RetrieverTool.init (RetrieverTool.init (RetrieverClassState.mk "") emptyStore "a").2
          emptyStore "b").2 =
      mkSourceDescription "b") ∧
    ((RetrieverTool.init (RetrieverClassState.mk "") emptyStore "a").1.sourceDesc
        (RetrieverTool.init (RetrieverTool.init (RetrieverClassState.mk "") emptyStore "a").2
          emptyStore "b").2 ≠
      mkSourceDescription "a") :=
  c10_shared_inputs_mutation (RetrieverClassState.mk "") emptyStore emptyStore "a" "b" (by decide)
